import Mathlib

/-! The authentication gateway of `server.js` (login-register-api).

A shallow embedding of the four routes of `src/server.js` (`/register`, `/login`,
`/logout`, `/protected`) and of the `verifyToken` middleware, as pure functions over an
explicit server state (the user collection and the `blacklistedTokens` array).

The external collaborators of the program (`String.prototype.toLowerCase`, `bcryptjs`,
`jsonwebtoken`, the collation of the database) are not code of the repository; they are the
fields of `Lib`, and every theorem holds for all of them unless it names an assumption.
What each request draws from the outside world (the clock, the salt, the fresh object id,
whether a database call rejects) is an `Ambient`.
-/

namespace LoginRegisterApi

/-! ## Values -/

/-- A JSON value as found in a field of `req.body`; `undefined` is an absent field.
Numbers are kept as integers; of an object or an array only its `_id` is kept, when that is
a string (`none` otherwise). -/
inductive JsVal where
  | undefined
  | null
  | bool (b : Bool)
  | num (n : Int)
  | str (s : String)
  | object (_id : Option String)
deriving DecidableEq, Repr

/-- A document of the `User` model (`userSchema`, lines 28-33), with its `_id`. -/
structure User where
  _id : String
  username : String
  password : String
  email : String
  role : String
deriving DecidableEq, Repr

/-- The body of a request to `/register` or `/login` (`email` is not read by `/login`). -/
structure Body where
  username : JsVal
  password : JsVal
  email : JsVal
deriving DecidableEq, Repr

/-- The payload of a token: the keys of the signed object, in order. -/
abbrev Payload := List (String × JsVal)

/-- The `data` key of a JSON response. -/
inductive Data where
  | null
  | id (i : String)
  | token (t : String)
deriving DecidableEq, Repr

/-- What `res.send` / `res.json` was given; `data = none` is a body without a `data` key. -/
inductive ResBody where
  | text (s : String)
  | json (message : String) (result : Bool) (data : Option Data)
deriving DecidableEq, Repr

/-- An HTTP response: `res.status(status)` followed by `send` or `json`. -/
structure Response where
  status : Nat
  body : ResBody
deriving DecidableEq, Repr

/-- The mutable state of the process: the `users` collection (in insertion order) and the
array exported by `./blacklist`. -/
structure State where
  users : List User
  /-- An entry is what `push` was given: a string, or `none` for `undefined`. -/
  blacklistedTokens : List (Option String)
deriving DecidableEq, Repr

/-- The external libraries the handlers call. -/
structure Lib where
  /-- The function `String.prototype.toLowerCase`. -/
  toLowerCase : String → String
  /-- Equality of two strings under the collation `{ locale: 'en', strength: 2 }`. -/
  collationEq : String → String → Bool
  /-- The result of `bcrypt.hash(s, rounds)` when the salt drawn is `salt`. -/
  bcryptHash : String → Nat → Nat → String
  /-- The result of `bcrypt.compare(s, hash)` on two strings. -/
  bcryptCompare : String → String → Bool
  /-- The function `Number.prototype.toString`. -/
  numberToString : Int → String
  /-- The compact serialisation of a payload signed with `secretOrPrivateKey`; `none` when
  the library throws (no usable secret). -/
  jwtEncode : Payload → Option String → Option String
  /-- The result of `jwt.verify(token, secretOrPublicKey)` when the clock shows `now`: the
  decoded payload, or `none` when the library throws (malformed token, bad signature,
  expired token). -/
  jwtVerify : String → Option String → Nat → Option Payload

/-- The configuration read from the environment: `process.env.JWT_SECRET`. -/
structure Env where
  JWT_SECRET : Option String

/-- What one request takes from the world outside the process. -/
structure Ambient where
  /-- The clock, in seconds. -/
  now : Nat
  /-- The salt `bcrypt.hash` draws. -/
  salt : Nat
  /-- The `_id` that `new User(...)` generates. -/
  objectId : String
  /-- The query `User.findOne` rejects (the database cannot be reached). -/
  findOneFails : Bool
  /-- The write of `user.save()` is rejected by the database. -/
  saveFails : Bool

/-! ## Strings -/

/-- Removes the first occurrence of `pat` from a list of characters, if there is one. -/
def removeFirst (pat : List Char) : List Char → List Char
  | [] => []
  | c :: cs => if pat.isPrefixOf (c :: cs) then (c :: cs).drop pat.length
               else c :: removeFirst pat cs

/-- The call `s.replace(pat, "")` for a non-empty string pattern: only the first occurrence
of `pat`, wherever it stands in `s`, is removed. -/
def replace (s pat : String) : String := ⟨removeFirst pat.data s.data⟩

/-- The expression `req.header("Authorization")?.replace("Bearer ", "")` (lines 43 and 63):
`none` is `undefined`. -/
def extractToken (authorization : Option String) : Option String :=
  authorization.map (fun h => replace h "Bearer ")

/-! ## The libraries as the handlers call them -/

/-- The option `expiresIn: "1h"` of line 141, in seconds. -/
def expiresIn : Nat := 60 * 60

/-- The call `jwt.sign(payload, secretOrPrivateKey, { expiresIn })` when the clock shows
`now`: the library copies the payload, sets `iat` to the clock and `exp` to `iat` plus the
span, and signs. `none` when it throws. -/
def jwt.sign (lib : Lib) (payload : Payload) (secretOrPrivateKey : Option String)
    (expiresIn now : Nat) : Option String :=
  lib.jwtEncode (payload ++ [("iat", .num now), ("exp", .num (now + expiresIn))])
    secretOrPrivateKey

/-- The call `jwt.verify(token, secretOrPublicKey)`; `none` when it throws. -/
def jwt.verify (lib : Lib) (token : String) (secretOrPublicKey : Option String)
    (now : Nat) : Option Payload :=
  lib.jwtVerify token secretOrPublicKey now

/-- The call `bcrypt.hash(s, rounds)`: it rejects (`none`) unless `s` is a string. -/
def bcrypt.hash (lib : Lib) (s : JsVal) (rounds salt : Nat) : Option String :=
  match s with
  | .str p => some (lib.bcryptHash p rounds salt)
  | _ => none

/-- The call `bcrypt.compare(s, hash)`: it rejects (`none`) unless `s` is a string. -/
def bcrypt.compare (lib : Lib) (s : JsVal) (hash : String) : Option Bool :=
  match s with
  | .str p => some (lib.bcryptCompare p hash)
  | _ => none

/-- The call `username.toLowerCase()` of lines 79 and 117: a `TypeError` (`none`) unless
the value is a string. -/
def toLowerCase (lib : Lib) : JsVal → Option String
  | .str s => some (lib.toLowerCase s)
  | _ => none

/-! ## The user collection -/

/-- The cast of a value to a path of type `String`: `none` is a cast error, `some none` a
path left unset. An object is cast to its `_id` when that is a string that is not empty, and
is a cast error otherwise. -/
def castString (lib : Lib) : JsVal → Option (Option String)
  | .undefined => some none
  | .null => some none
  | .str s => some (some s)
  | .bool b => some (some (if b then "true" else "false"))
  | .num n => some (some (lib.numberToString n))
  | .object (some _id) => if _id = "" then none else some (some _id)
  | .object none => none

/-- The validator of `required: true` on a path of type `String`: the path holds a string
that is not empty. -/
def checkRequired : Option String → Option String
  | some s => if s = "" then none else some s
  | none => none

/-- The document `new User({ username, password, email })` of lines 89-93 as validated by
`userSchema` on `save`: the three required paths, and `role` at its default `"user"`.
`none` when validation fails. -/
def userSchema (lib : Lib) (_id username password : String) (email : JsVal) : Option User :=
  match checkRequired (some username), checkRequired (some password),
        (castString lib email).bind checkRequired with
  | some u, some p, some e => some ⟨_id, u, p, e, "user"⟩
  | _, _, _ => none

/-- The query `User.findOne({ username })` under the string equality `eq`. -/
def User.findOne (users : List User) (eq : String → String → Bool) (username : String) :
    Option User :=
  users.find? (fun u => eq u.username username)

/-! ## The middleware and the routes -/

/-- The result of the middleware `verifyToken` (lines 41-59): the response it sends
(`error`), or the decoded payload it stores in `req.user` before calling `next` (`ok`). -/
def verifyToken (lib : Lib) (env : Env) (blacklistedTokens : List (Option String))
    (authorization : Option String) (now : Nat) : Except Response Payload :=
  match extractToken authorization with
  | none => .error ⟨401, .text "Authorization header missing or malformed"⟩
  | some token =>
    if token = "" then
      .error ⟨401, .text "Authorization header missing or malformed"⟩
    else if some token ∈ blacklistedTokens then
      .error ⟨401, .text "Token is blacklisted"⟩
    else
      match jwt.verify lib token env.JWT_SECRET now with
      | none => .error ⟨401, .text "Invalid token"⟩
      | some decoded => .ok decoded

/-- The route `POST /logout` (lines 62-66). -/
def logout (lib : Lib) (env : Env) (st : State) (authorization : Option String)
    (amb : Ambient) : Response × State :=
  match verifyToken lib env st.blacklistedTokens authorization amb.now with
  | .error res => (res, st)
  | .ok _ =>
    let token := extractToken authorization
    (⟨200, .text "Logged out successfully"⟩,
     { st with blacklistedTokens := st.blacklistedTokens ++ [token] })

/-- The route `GET /protected` (lines 68-70). -/
def «protected» (lib : Lib) (env : Env) (st : State) (authorization : Option String)
    (amb : Ambient) : Response × State :=
  match verifyToken lib env st.blacklistedTokens authorization amb.now with
  | .error res => (res, st)
  | .ok _ => (⟨200, .text "This is a protected route"⟩, st)

/-- The route `POST /register` (lines 74-109); every exception ends in the `catch`. -/
def register (lib : Lib) (st : State) (body : Body) (amb : Ambient) : Response × State :=
  let serverError : Response × State := (⟨500, .json "Server error" false none⟩, st)
  match toLowerCase lib body.username with
  | none => serverError
  | some username =>
    if amb.findOneFails then serverError
    else
      match User.findOne st.users (fun a b => a == b) username with
      | some _ => (⟨400, .text "User already exists"⟩, st)
      | none =>
        match bcrypt.hash lib body.password 10 amb.salt with
        | none => serverError
        | some hashedPassword =>
          match userSchema lib amb.objectId username hashedPassword body.email with
          | none => serverError
          | some savedUser =>
            if amb.saveFails then serverError
            else
              (⟨201, .json "Saved Successfully" true (some (.id savedUser._id))⟩,
               { st with users := st.users ++ [savedUser] })

/-- The route `POST /login` (lines 112-157); every exception ends in the `catch`. -/
def login (lib : Lib) (env : Env) (st : State) (body : Body) (amb : Ambient) :
    Response × State :=
  let serverError : Response × State := (⟨500, .json "Server error" false (some .null)⟩, st)
  let wrong : Response × State :=
    (⟨400, .json "UserName or Password is Wrong" false (some .null)⟩, st)
  match toLowerCase lib body.username with
  | none => serverError
  | some username =>
    if amb.findOneFails then serverError
    else
      match User.findOne st.users lib.collationEq username with
      | none => wrong
      | some user =>
        match bcrypt.compare lib body.password user.password with
        | none => serverError
        | some false => wrong
        | some true =>
          match jwt.sign lib [("_id", .str user._id), ("role", .str user.role)]
              env.JWT_SECRET expiresIn amb.now with
          | none => serverError
          | some token => (⟨200, .json "Login Success" true (some (.token token))⟩, st)

/-! ## Sequences of requests -/

/-- A request to one of the four routes. -/
inductive Request where
  | register (body : Body)
  | login (body : Body)
  | logout (authorization : Option String)
  | «protected» (authorization : Option String)

/-- The server answers one request. -/
def step (lib : Lib) (env : Env) (st : State) (req : Request) (amb : Ambient) :
    Response × State :=
  match req with
  | .register body => register lib st body amb
  | .login body => login lib env st body amb
  | .logout authorization => logout lib env st authorization amb
  | .protected authorization => «protected» lib env st authorization amb

/-- The state after the server has answered a sequence of requests, one after the other. -/
def run (lib : Lib) (env : Env) : State → List (Request × Ambient) → State
  | st, [] => st
  | st, (req, amb) :: rest => run lib env (step lib env st req amb).2 rest

/-- The state of a fresh process on an empty database. -/
def State.empty : State := ⟨[], []⟩

/-! ## Stand-ins for the libraries, to run the handlers on concrete requests -/

/-- Lower case of the letters `A`-`Z`, every other character kept. -/
def asciiLower (s : String) : String := ⟨s.data.map Char.toLower⟩

/-- A small stand-in for the libraries: the hash of `p` is `"hash:" ++ p`, the signer
needs a secret and always issues the token `"h.p.s"`, which the verifier accepts (from any
non-empty secret) while the clock is below `4000`. -/
def Lib.demo : Lib where
  toLowerCase := asciiLower
  collationEq := fun a b => asciiLower a == asciiLower b
  bcryptHash := fun p _ _ => "hash:" ++ p
  bcryptCompare := fun p h => h == "hash:" ++ p
  numberToString := fun n => toString n
  jwtEncode := fun _ secret =>
    match secret with
    | some k => if k = "" then none else some "h.p.s"
    | none => none
  jwtVerify := fun token secret now =>
    match secret with
    | some k =>
      if k ≠ "" ∧ token = "h.p.s" ∧ now < 4000 then
        some [("_id", .str "id1"), ("role", .str "user"), ("iat", .num 100),
              ("exp", .num 3700)]
      else none
    | none => none

/-- An environment in which `JWT_SECRET` is set. -/
def Env.demo : Env := ⟨some "secret"⟩

/-- A request served at clock `now` while the database answers, with salt `7` and the
object id `"id1"` at hand. -/
def Ambient.at (now : Nat) : Ambient := ⟨now, 7, "id1", false, false⟩

/-! ## Theorems -/

/-! ### The token taken from the `Authorization` header -/

/-- When `pat` stands at the head of the list, `removeFirst` drops exactly that head. -/
theorem removeFirst_append (pat rest : List Char) (h : pat ≠ []) :
    removeFirst pat (pat ++ rest) = rest := by
  cases pat with
  | nil => exact absurd rfl h
  | cons c cs =>
    have hp : (c :: cs).isPrefixOf (c :: (cs ++ rest)) = true := by
      have : (c :: cs) <+: (c :: cs) ++ rest := List.prefix_append _ _
      simp
    simp only [List.cons_append, removeFirst, hp, if_true]
    simp

/-- The header `"Bearer " ++ T` yields the token `T`, whatever `T` is. -/
theorem extractToken_bearer (T : String) :
    extractToken (some ("Bearer " ++ T)) = some T := by
  have h := removeFirst_append "Bearer ".data T.data (by decide)
  simp only [extractToken, Option.map_some', replace, String.data_append, h]

/-- The middleware answers `Token is blacklisted` for every non-empty token that is in the
array, whatever the verifier would say. -/
theorem verifyToken_blacklisted (lib : Lib) (env : Env) (bl : List (Option String))
    (authorization : Option String) (now : Nat) (t : String)
    (ht : extractToken authorization = some t) (hne : t ≠ "") (hin : some t ∈ bl) :
    verifyToken lib env bl authorization now = .error ⟨401, .text "Token is blacklisted"⟩ := by
  simp [verifyToken, ht, hne, hin]

/-- What the middleware has stored in `req.user` when it calls `next`. -/
theorem verifyToken_ok (lib : Lib) (env : Env) (bl : List (Option String))
    (authorization : Option String) (now : Nat) (decoded : Payload)
    (h : verifyToken lib env bl authorization now = .ok decoded) :
    ∃ t, extractToken authorization = some t ∧ t ≠ "" ∧ some t ∉ bl ∧
      jwt.verify lib t env.JWT_SECRET now = some decoded := by
  unfold verifyToken at h
  split at h
  · simp at h
  · rename_i token htok
    by_cases hne : token = ""
    · simp [hne] at h
    · by_cases hbl : some token ∈ bl
      · simp [hne, hbl] at h
      · simp only [hne, if_false, hbl] at h
        refine ⟨token, htok, hne, hbl, ?_⟩
        cases hd : jwt.verify lib token env.JWT_SECRET now with
        | none => simp [hd] at h
        | some d =>
          simp only [hd, Except.ok.injEq] at h
          rw [h]

/-- Every response the middleware sends itself has status 401. -/
theorem verifyToken_error (lib : Lib) (env : Env) (bl : List (Option String))
    (authorization : Option String) (now : Nat) (res : Response)
    (h : verifyToken lib env bl authorization now = .error res) : res.status = 401 := by
  unfold verifyToken at h
  repeat' split at h
  all_goals first
    | (simp only [Except.error.injEq] at h; rw [← h])
    | simp at h

/-! ### The blacklist only grows -/

/-- Each route keeps every entry of the blacklist. -/
theorem step_blacklist_mono (lib : Lib) (env : Env) (st : State) (req : Request)
    (amb : Ambient) (x : Option String) (hx : x ∈ st.blacklistedTokens) :
    x ∈ (step lib env st req amb).2.blacklistedTokens := by
  cases req with
  | register body =>
    simp only [step, register]
    repeat' split
    all_goals simp [hx]
  | login body =>
    simp only [step, login]
    repeat' split
    all_goals simp [hx]
  | logout authorization =>
    simp only [step, logout]
    split
    · exact hx
    · simp [hx]
  | «protected» authorization =>
    simp only [step, «protected»]
    split <;> exact hx

/-- A sequence of requests keeps every entry of the blacklist. -/
theorem run_blacklist_mono (lib : Lib) (env : Env) (rs : List (Request × Ambient))
    (st : State) (x : Option String) (hx : x ∈ st.blacklistedTokens) :
    x ∈ (run lib env st rs).blacklistedTokens := by
  induction rs generalizing st with
  | nil => exact hx
  | cons r rest ih =>
    obtain ⟨req, amb⟩ := r
    exact ih _ (step_blacklist_mono lib env st req amb x hx)

/-- A logout answered 200 has put the token of its header, which is not empty, in the
blacklist. -/
theorem logout_ok_blacklists (lib : Lib) (env : Env) (st : State)
    (authorization : Option String) (amb : Ambient)
    (h : (logout lib env st authorization amb).1.status = 200) :
    ∃ t, extractToken authorization = some t ∧ t ≠ "" ∧
      (logout lib env st authorization amb).2 =
        { st with blacklistedTokens := st.blacklistedTokens ++ [some t] } := by
  unfold logout at h ⊢
  cases hv : verifyToken lib env st.blacklistedTokens authorization amb.now with
  | error res =>
    have := verifyToken_error lib env _ _ _ _ hv
    simp only [hv] at h
    omega
  | ok d =>
    obtain ⟨t, ht, hne, -, -⟩ := verifyToken_ok lib env _ _ _ _ hv
    exact ⟨t, ht, hne, by simp [ht]⟩

/-- Both guarded routes refuse a non-empty token that is in the blacklist, and leave the
state as it is. -/
theorem guarded_blacklisted (lib : Lib) (env : Env) (st : State)
    (authorization : Option String) (amb : Ambient) (t : String)
    (ht : extractToken authorization = some t) (hne : t ≠ "")
    (hin : some t ∈ st.blacklistedTokens) :
    «protected» lib env st authorization amb = (⟨401, .text "Token is blacklisted"⟩, st) ∧
    logout lib env st authorization amb = (⟨401, .text "Token is blacklisted"⟩, st) := by
  have hv := verifyToken_blacklisted lib env st.blacklistedTokens authorization amb.now t
    ht hne hin
  constructor
  · simp only [«protected», hv]
  · simp only [logout, hv]

/-! ### Revocation -/

/-- C1: once `POST /logout` with the header `Bearer T` has been answered 200, then after any
sequence of further requests both guarded routes answer the header `Bearer T` with
401 `Token is blacklisted` and leave the state as it is, whatever the verifier would say
about `T` at that time. -/
theorem revocation_is_permanent (lib : Lib) (env : Env) (st : State) (T : String)
    (amb0 : Ambient) (rest : List (Request × Ambient)) (amb : Ambient)
    (h : (logout lib env st (some ("Bearer " ++ T)) amb0).1.status = 200) :
    «protected» lib env (run lib env (logout lib env st (some ("Bearer " ++ T)) amb0).2 rest)
        (some ("Bearer " ++ T)) amb
      = (⟨401, .text "Token is blacklisted"⟩,
         run lib env (logout lib env st (some ("Bearer " ++ T)) amb0).2 rest) ∧
    logout lib env (run lib env (logout lib env st (some ("Bearer " ++ T)) amb0).2 rest)
        (some ("Bearer " ++ T)) amb
      = (⟨401, .text "Token is blacklisted"⟩,
         run lib env (logout lib env st (some ("Bearer " ++ T)) amb0).2 rest) := by
  obtain ⟨t, ht, hne, hst⟩ := logout_ok_blacklists lib env st _ amb0 h
  rw [extractToken_bearer] at ht
  cases ht
  have hin : some T ∈ (logout lib env st (some ("Bearer " ++ T)) amb0).2.blacklistedTokens := by
    rw [hst]; simp
  have hrun := run_blacklist_mono lib env rest _ _ hin
  exact guarded_blacklisted lib env _ (some ("Bearer " ++ T)) amb T (extractToken_bearer T)
    hne hrun

/-- The scenario of C1 on the stand-in libraries: the token `h.p.s` is logged out at clock
100; a registration, a login and another guarded request later, at clock 200 (where the
verifier would still accept it), it is refused as blacklisted. -/
theorem revocation_is_permanent_witness :
    (logout Lib.demo Env.demo State.empty (some ("Bearer " ++ "h.p.s")) (Ambient.at 100)).1.status
        = 200 ∧
    jwt.verify Lib.demo "h.p.s" Env.demo.JWT_SECRET 200 ≠ none ∧
    («protected» Lib.demo Env.demo
        (run Lib.demo Env.demo
          (logout Lib.demo Env.demo State.empty (some ("Bearer " ++ "h.p.s")) (Ambient.at 100)).2
          [(.register ⟨.str "Bob", .str "pw123", .str "b@x.com"⟩, Ambient.at 110),
           (.login ⟨.str "bob", .str "pw123", .undefined⟩, Ambient.at 120),
           (.protected (some "Bearer other"), Ambient.at 130)])
        (some ("Bearer " ++ "h.p.s")) (Ambient.at 200)).1
      = ⟨401, .text "Token is blacklisted"⟩ := by
  refine ⟨by decide, by decide, ?_⟩
  rw [(revocation_is_permanent Lib.demo Env.demo State.empty "h.p.s" (Ambient.at 100) _
    (Ambient.at 200) (by decide)).1]

/-! ### The decision order of `verifyToken` -/

/-- C2: with `token` the token taken from the header, `verifyToken` answers 401
`Authorization header missing or malformed` when the token is absent or empty; otherwise
401 `Token is blacklisted` when the blacklist holds the token, whatever the verifier says;
otherwise 401 `Invalid token` when the verifier throws; and otherwise it stores the decoded
payload and calls `next`. So it calls `next`, and a guarded route answers 200, only for a
token that is not blacklisted and that the verifier accepts. -/
theorem verifyToken_decision_order (lib : Lib) (env : Env) (st : State)
    (authorization : Option String) (amb : Ambient) :
    ((extractToken authorization = none ∨ extractToken authorization = some "") →
      verifyToken lib env st.blacklistedTokens authorization amb.now
        = .error ⟨401, .text "Authorization header missing or malformed"⟩) ∧
    (∀ token, extractToken authorization = some token → token ≠ "" →
      (some token ∈ st.blacklistedTokens →
        verifyToken lib env st.blacklistedTokens authorization amb.now
          = .error ⟨401, .text "Token is blacklisted"⟩) ∧
      (some token ∉ st.blacklistedTokens →
        jwt.verify lib token env.JWT_SECRET amb.now = none →
        verifyToken lib env st.blacklistedTokens authorization amb.now
          = .error ⟨401, .text "Invalid token"⟩) ∧
      (some token ∉ st.blacklistedTokens →
        ∀ decoded, jwt.verify lib token env.JWT_SECRET amb.now = some decoded →
        verifyToken lib env st.blacklistedTokens authorization amb.now = .ok decoded)) ∧
    (∀ decoded, verifyToken lib env st.blacklistedTokens authorization amb.now = .ok decoded →
      ∃ token, extractToken authorization = some token ∧ token ≠ "" ∧
        some token ∉ st.blacklistedTokens ∧
        jwt.verify lib token env.JWT_SECRET amb.now = some decoded) ∧
    ((«protected» lib env st authorization amb).1.status = 200 ∨
        (logout lib env st authorization amb).1.status = 200 →
      ∃ token decoded, extractToken authorization = some token ∧ token ≠ "" ∧
        some token ∉ st.blacklistedTokens ∧
        jwt.verify lib token env.JWT_SECRET amb.now = some decoded) := by
  refine ⟨?_, ?_, ?_, ?_⟩
  · rintro (h | h) <;> simp [verifyToken, h]
  · intro token ht hne
    refine ⟨fun hin => verifyToken_blacklisted lib env _ _ _ token ht hne hin, ?_, ?_⟩
    · intro hnin hv
      simp [verifyToken, ht, hne, hnin, hv]
    · intro hnin decoded hv
      simp [verifyToken, ht, hne, hnin, hv]
  · intro decoded h
    exact verifyToken_ok lib env _ _ _ _ h
  · intro h
    cases hv : verifyToken lib env st.blacklistedTokens authorization amb.now with
    | error res =>
      have h401 := verifyToken_error lib env _ _ _ _ hv
      simp only [«protected», logout, hv] at h
      omega
    | ok decoded =>
      obtain ⟨token, h1, h2, h3, h4⟩ := verifyToken_ok lib env _ _ _ _ hv
      exact ⟨token, decoded, h1, h2, h3, h4⟩

/-! ### The form of the `Authorization` header -/

/-- C5, where the code departs from the claim: line 43 removes the first `Bearer ` it finds
instead of requiring it in front, so a header that is the bare token, with no `Bearer `
before it, is not answered `Authorization header missing or malformed` but accepted, and
`GET /protected` answers it 200; a bare value that is in the blacklist is answered
`Token is blacklisted`, so it did reach the blacklist check; and a header with `Bearer ` in
the middle is accepted as the token made of what stands around it. -/
theorem bearer_form_not_required :
    (∃ decoded, verifyToken Lib.demo Env.demo [] (some "h.p.s") 100 = .ok decoded) ∧
    verifyToken Lib.demo Env.demo [some "abc"] (some "abc") 100
      = .error ⟨401, .text "Token is blacklisted"⟩ ∧
    (∃ decoded, verifyToken Lib.demo Env.demo [] (some "h.Bearer p.s") 100 = .ok decoded) ∧
    («protected» Lib.demo Env.demo State.empty (some "h.p.s") (Ambient.at 100)).1.status
      = 200 ∧
    "Bearer ".data.isPrefixOf "h.p.s".data = false := by
  refine ⟨⟨_, rfl⟩, rfl, ⟨_, rfl⟩, by decide, by decide⟩

/-! ### What each route does to the state -/

/-- C9: when `verifyToken` accepts the request, `POST /logout` answers 200 and the new
blacklist is the old one with the authenticated token appended, the users untouched; when
`verifyToken` refuses it, the answer is that 401 response and the state is unchanged.
`GET /protected` and `POST /login` leave the whole state unchanged and `POST /register`
leaves the blacklist unchanged. -/
theorem logout_frame (lib : Lib) (env : Env) (st : State) (authorization : Option String)
    (body : Body) (amb : Ambient) :
    (∀ decoded, verifyToken lib env st.blacklistedTokens authorization amb.now = .ok decoded →
      ∃ token, extractToken authorization = some token ∧ token ≠ "" ∧
        jwt.verify lib token env.JWT_SECRET amb.now = some decoded ∧
        logout lib env st authorization amb
          = (⟨200, .text "Logged out successfully"⟩,
             ⟨st.users, st.blacklistedTokens ++ [some token]⟩)) ∧
    (∀ res, verifyToken lib env st.blacklistedTokens authorization amb.now = .error res →
      res.status = 401 ∧ logout lib env st authorization amb = (res, st)) ∧
    («protected» lib env st authorization amb).2 = st ∧
    (login lib env st body amb).2 = st ∧
    (register lib st body amb).2.blacklistedTokens = st.blacklistedTokens := by
  refine ⟨?_, ?_, ?_, ?_, ?_⟩
  · intro decoded hv
    obtain ⟨token, ht, hne, -, hd⟩ := verifyToken_ok lib env _ _ _ _ hv
    exact ⟨token, ht, hne, hd, by simp only [logout, hv, ht]⟩
  · intro res hv
    exact ⟨verifyToken_error lib env _ _ _ _ hv, by simp only [logout, hv]⟩
  · simp only [«protected»]
    split <;> rfl
  · simp only [login]
    repeat' split
    all_goals rfl
  · simp only [register]
    repeat' split
    all_goals rfl

/-! ### Login -/

/-- C3, amended: a login for which no user matches the username, whatever its password
field holds, and a login with a string password for which a user matches but the password
does not verify get the same response, status 400 with the body
`{message: "UserName or Password is Wrong", result: false, data: null}`; the body carries
no token and neither request changes the users or the blacklist. -/
theorem login_failures_indistinguishable (lib : Lib) (env : Env) (st₁ st₂ : State)
    (body₁ body₂ : Body) (amb₁ amb₂ : Ambient) (name₁ name₂ pw₂ : String) (user : User)
    (hname₁ : body₁.username = .str name₁) (hdb₁ : amb₁.findOneFails = false)
    (hnone : User.findOne st₁.users lib.collationEq (lib.toLowerCase name₁) = none)
    (hname₂ : body₂.username = .str name₂) (hdb₂ : amb₂.findOneFails = false)
    (hsome : User.findOne st₂.users lib.collationEq (lib.toLowerCase name₂) = some user)
    (hpw₂ : body₂.password = .str pw₂) (hbad : lib.bcryptCompare pw₂ user.password = false) :
    login lib env st₁ body₁ amb₁
      = (⟨400, .json "UserName or Password is Wrong" false (some .null)⟩, st₁) ∧
    login lib env st₂ body₂ amb₂
      = (⟨400, .json "UserName or Password is Wrong" false (some .null)⟩, st₂) ∧
    (login lib env st₁ body₁ amb₁).1 = (login lib env st₂ body₂ amb₂).1 := by
  have h₁ : login lib env st₁ body₁ amb₁
      = (⟨400, .json "UserName or Password is Wrong" false (some .null)⟩, st₁) := by
    simp [login, toLowerCase, hname₁, hdb₁, hnone]
  have h₂ : login lib env st₂ body₂ amb₂
      = (⟨400, .json "UserName or Password is Wrong" false (some .null)⟩, st₂) := by
    simp [login, toLowerCase, hname₂, hdb₂, hsome, bcrypt.compare, hpw₂, hbad]
  exact ⟨h₁, h₂, by rw [h₁, h₂]⟩

/-- A store with the one user a registration of `Bob` leaves behind. -/
def State.withBob : State :=
  ⟨[⟨"id1", "bob", "hash:pw123", "b@x.com", "user"⟩], []⟩

/-- C3, the claim as written fails: on the store that holds `bob`, a body without a password
is answered 500 `Server error` when its username is `bob`, because `bcrypt.compare` rejects
a password that is not a string, and 400 `UserName or Password is Wrong` when its username
is the unknown `alice`; the same holds for a password that is a number. The two responses
differ, so they tell whether the username exists. -/
theorem login_without_password_tells_known_user :
    (login Lib.demo Env.demo State.withBob ⟨.str "bob", .undefined, .undefined⟩
        (Ambient.at 100)).1 = ⟨500, .json "Server error" false (some .null)⟩ ∧
    (login Lib.demo Env.demo State.withBob ⟨.str "alice", .undefined, .undefined⟩
        (Ambient.at 100)).1
      = ⟨400, .json "UserName or Password is Wrong" false (some .null)⟩ ∧
    (login Lib.demo Env.demo State.withBob ⟨.str "bob", .num 1, .undefined⟩
        (Ambient.at 100)).1 = ⟨500, .json "Server error" false (some .null)⟩ ∧
    (login Lib.demo Env.demo State.withBob ⟨.str "alice", .num 1, .undefined⟩
        (Ambient.at 100)).1
      = ⟨400, .json "UserName or Password is Wrong" false (some .null)⟩ ∧
    (login Lib.demo Env.demo State.withBob ⟨.str "bob", .undefined, .undefined⟩
        (Ambient.at 100)).1
      ≠ (login Lib.demo Env.demo State.withBob ⟨.str "alice", .undefined, .undefined⟩
        (Ambient.at 100)).1 := by
  decide

/-- The two cases of the amended C3 on the stand-in libraries: `alice` is unknown to the store that holds
`bob`, and `bob` logs in with a wrong password. -/
theorem login_failures_indistinguishable_witness :
    (login Lib.demo Env.demo State.withBob ⟨.str "Alice", .str "pw123", .undefined⟩
        (Ambient.at 100)).1
      = (login Lib.demo Env.demo State.withBob ⟨.str "Bob", .str "wrong", .undefined⟩
        (Ambient.at 100)).1 :=
  (login_failures_indistinguishable Lib.demo Env.demo State.withBob State.withBob
    ⟨.str "Alice", .str "pw123", .undefined⟩ ⟨.str "Bob", .str "wrong", .undefined⟩
    (Ambient.at 100) (Ambient.at 100) "Alice" "Bob" "wrong"
    ⟨"id1", "bob", "hash:pw123", "b@x.com", "user"⟩
    rfl rfl (by decide) rfl rfl (by decide) rfl (by decide)).2.2

/-- The stand-in libraries with a signer that shows what it was given: the token is the
list of the keys of the payload. -/
def Lib.showKeys : Lib :=
  { Lib.demo with
    jwtEncode := fun payload _ => some (String.intercalate "," (payload.map Prod.fst)) }

/-- C6, the claim as written fails: the payload that login signs has the user id under the
key `_id` and has no key `sub`, so the token is not the one that signing
`{sub: id, role}` gives. -/
theorem login_token_has_no_sub :
    login Lib.showKeys Env.demo State.withBob ⟨.str "Bob", .str "pw123", .undefined⟩
        (Ambient.at 100)
      = (⟨200, .json "Login Success" true (some (.token "_id,role,iat,exp"))⟩,
         State.withBob) ∧
    jwt.sign Lib.showKeys [("sub", .str "id1"), ("role", .str "user")] Env.demo.JWT_SECRET
        expiresIn 100
      = some "sub,role,iat,exp" := by
  constructor <;> decide

/-- C6, amended: when the store answers with a user for the username, the password verifies
against the stored hash and the signer returns a token, login answers 200 with the body
`{message: "Login Success", result: true, data: {token}}`, where the token is the signed
payload `{_id: the user's id, role: the user's stored role, iat: the clock,
exp: the clock + 3600 seconds}` under `JWT_SECRET`; the state is unchanged. -/
theorem login_issues_token (lib : Lib) (env : Env) (st : State) (body : Body) (amb : Ambient)
    (name pw token : String) (user : User)
    (hname : body.username = .str name) (hdb : amb.findOneFails = false)
    (hfind : User.findOne st.users lib.collationEq (lib.toLowerCase name) = some user)
    (hpw : body.password = .str pw) (hok : lib.bcryptCompare pw user.password = true)
    (hsign : lib.jwtEncode
        [("_id", .str user._id), ("role", .str user.role), ("iat", .num amb.now),
         ("exp", .num (amb.now + 3600))] env.JWT_SECRET = some token) :
    user ∈ st.users ∧
    login lib env st body amb
      = (⟨200, .json "Login Success" true (some (.token token))⟩, st) := by
  constructor
  · exact List.mem_of_find?_eq_some hfind
  · have hs : jwt.sign lib [("_id", .str user._id), ("role", .str user.role)] env.JWT_SECRET
        expiresIn amb.now = some token := by
      rw [← hsign]
      simp [jwt.sign, expiresIn]
    simp [login, toLowerCase, hname, hdb, hfind, bcrypt.compare, hpw, hok, hs]

/-- The amended C6 on the stand-in libraries: `Bob` logs in at clock 100 with the right
password and gets the token of the stand-in signer. -/
theorem login_issues_token_witness :
    login Lib.demo Env.demo State.withBob ⟨.str "Bob", .str "pw123", .undefined⟩
        (Ambient.at 100)
      = (⟨200, .json "Login Success" true (some (.token "h.p.s"))⟩, State.withBob) :=
  (login_issues_token Lib.demo Env.demo State.withBob ⟨.str "Bob", .str "pw123", .undefined⟩
    (Ambient.at 100) "Bob" "pw123" "h.p.s" ⟨"id1", "bob", "hash:pw123", "b@x.com", "user"⟩
    rfl rfl (by decide) rfl (by decide) (by decide)).2

/-! ### Registration -/

/-- A document that passes validation holds the values it was built from, none of the
three required strings is empty, and its role is `"user"`. -/
theorem userSchema_some (lib : Lib) (_id username password : String) (email : JsVal)
    (user : User) (h : userSchema lib _id username password email = some user) :
    username ≠ "" ∧ password ≠ "" ∧
    ∃ e, (castString lib email).bind checkRequired = some e ∧ e ≠ "" ∧
      user = ⟨_id, username, password, e, "user"⟩ := by
  unfold userSchema at h
  split at h
  · rename_i u p e hu hp he
    simp only [checkRequired] at hu hp
    split at hu
    · simp at hu
    · rename_i hune
      split at hp
      · simp at hp
      · rename_i hpne
        simp only [Option.some.injEq] at hu hp h
        refine ⟨hune, hpne, e, he, ?_, ?_⟩
        · intro he0
          subst he0
          cases hc : castString lib email with
          | none => simp [hc] at he
          | some o =>
            cases o with
            | none => simp [hc, checkRequired] at he
            | some s =>
              simp only [hc, Option.some_bind, checkRequired] at he
              split at he
              · simp at he
              · rename_i hs
                simp only [Option.some.injEq] at he
                exact hs he
        · rw [← h, hu, hp]
  · simp at h

/-- What `POST /register` does: either it leaves the state as it is and does not answer
201, or it answers 201 and has appended one validated document, named by the lower-cased
username that no stored user had, holding the hash of the submitted password. -/
theorem register_cases (lib : Lib) (st : State) (body : Body) (amb : Ambient) :
    ((register lib st body amb).2 = st ∧ (register lib st body amb).1.status ≠ 201) ∨
    ∃ name pw user, body.username = .str name ∧ body.password = .str pw ∧
      amb.findOneFails = false ∧ amb.saveFails = false ∧
      User.findOne st.users (fun a b => a == b) (lib.toLowerCase name) = none ∧
      userSchema lib amb.objectId (lib.toLowerCase name) (lib.bcryptHash pw 10 amb.salt)
        body.email = some user ∧
      register lib st body amb
        = (⟨201, .json "Saved Successfully" true (some (.id user._id))⟩,
           ⟨st.users ++ [user], st.blacklistedTokens⟩) := by
  cases hu : body.username with
  | str name =>
    by_cases hdb : amb.findOneFails = true
    · left
      simp [register, toLowerCase, hu, hdb]
    · cases hf : User.findOne st.users (fun a b => a == b) (lib.toLowerCase name) with
      | some existing =>
        left
        simp [register, toLowerCase, hu, hdb, hf]
      | none =>
        cases hp : body.password with
        | str pw =>
          cases hs : userSchema lib amb.objectId (lib.toLowerCase name)
              (lib.bcryptHash pw 10 amb.salt) body.email with
          | none =>
            left
            simp [register, toLowerCase, hu, hdb, hf, bcrypt.hash, hp, hs]
          | some user =>
            by_cases hsv : amb.saveFails = true
            · left
              simp [register, toLowerCase, hu, hdb, hf, bcrypt.hash, hp, hs, hsv]
            · right
              refine ⟨name, pw, user, rfl, rfl, by simpa using hdb, by simpa using hsv, hf,
                hs, ?_⟩
              simp [register, toLowerCase, hu, hdb, hf, bcrypt.hash, hp, hs, hsv]
        | _ =>
          left
          simp [register, toLowerCase, hu, hdb, hf, bcrypt.hash, hp]
  | _ =>
    left
    simp [register, toLowerCase, hu]

/-- The query for a name finds a user in every store whose last user has that name. -/
theorem findOne_append_self (users : List User) (user : User) :
    ∃ found, User.findOne (users ++ [user]) (fun a b => a == b) user.username = some found := by
  have h : ((users ++ [user]).find? (fun u => u.username == user.username)).isSome = true := by
    rw [List.find?_isSome]
    exact ⟨user, by simp, by simp⟩
  exact Option.isSome_iff_exists.mp h

/-- C4: when a registration under the username `u₁` has been answered 201, a following
registration under a username `u₂` with the same lower-case form (a case variant of `u₁`),
whatever its password and email, is answered 400 `User already exists` as long as the
database answers the query, and the state is left as the first registration made it. -/
theorem duplicate_registration_rejected (lib : Lib) (st : State) (body₁ body₂ : Body)
    (amb₁ amb₂ : Ambient) (u₁ u₂ : String)
    (h₁ : body₁.username = .str u₁) (h₂ : body₂.username = .str u₂)
    (hcase : lib.toLowerCase u₁ = lib.toLowerCase u₂)
    (hok : (register lib st body₁ amb₁).1.status = 201)
    (hdb : amb₂.findOneFails = false) :
    register lib (register lib st body₁ amb₁).2 body₂ amb₂
      = (⟨400, .text "User already exists"⟩, (register lib st body₁ amb₁).2) := by
  rcases register_cases lib st body₁ amb₁ with ⟨-, hne⟩ | ⟨name, pw, user, hn, -, -, -, -, hs, hr⟩
  · exact absurd hok hne
  · rw [h₁] at hn
    cases hn
    obtain ⟨-, -, e, -, -, huser⟩ := userSchema_some lib _ _ _ _ _ hs
    have hname : user.username = lib.toLowerCase u₂ := by rw [huser, hcase]
    obtain ⟨found, hfound⟩ := findOne_append_self st.users user
    rw [hname] at hfound
    rw [hr]
    simp [register, toLowerCase, h₂, hdb, hfound]

/-- The scenario of C4 on the stand-in libraries: `Alice` registers, then `alice` tries to,
with another password and another email. -/
theorem duplicate_registration_rejected_witness :
    (register Lib.demo State.empty ⟨.str "Alice", .str "pw1", .str "a@x.com"⟩
        (Ambient.at 100)).1.status = 201 ∧
    register Lib.demo
        (register Lib.demo State.empty ⟨.str "Alice", .str "pw1", .str "a@x.com"⟩
          (Ambient.at 100)).2
        ⟨.str "alice", .str "pw2", .str "other@x.com"⟩ (Ambient.at 200)
      = (⟨400, .text "User already exists"⟩,
         ⟨[⟨"id1", "alice", "hash:pw1", "a@x.com", "user"⟩], []⟩) :=
  ⟨by decide,
   duplicate_registration_rejected Lib.demo State.empty
    ⟨.str "Alice", .str "pw1", .str "a@x.com"⟩ ⟨.str "alice", .str "pw2", .str "other@x.com"⟩
    (Ambient.at 100) (Ambient.at 200) "Alice" "alice" rfl rfl (by decide) (by decide) rfl⟩

/-! ### The user collection over time -/

/-- The users known after a request are the users known before it, followed by at most one
new document. -/
theorem step_users_extend (lib : Lib) (env : Env) (st : State) (req : Request)
    (amb : Ambient) : st.users <+: (step lib env st req amb).2.users := by
  cases req with
  | register body =>
    rcases register_cases lib st body amb with ⟨h, -⟩ | ⟨_, _, user, -, -, -, -, -, -, h⟩
    · simp only [step, h]
      exact List.prefix_refl _
    · simp only [step, h]
      exact List.prefix_append _ _
  | login body =>
    have : (login lib env st body amb).2 = st := by
      simp only [login]
      repeat' split
      all_goals rfl
    simp only [step, this]
    exact List.prefix_refl _
  | logout authorization =>
    simp only [step, logout]
    split <;> exact List.prefix_refl _
  | «protected» authorization =>
    simp only [step, «protected»]
    split <;> exact List.prefix_refl _

/-- The users known after a sequence of requests start with the users known before it. -/
theorem run_users_extend (lib : Lib) (env : Env) (rs : List (Request × Ambient))
    (st : State) : st.users <+: (run lib env st rs).users := by
  induction rs generalizing st with
  | nil => exact List.prefix_refl _
  | cons r rest ih =>
    obtain ⟨req, amb⟩ := r
    exact (step_users_extend lib env st req amb).trans (ih _)

/-- The invariant of the user collection: every username is its own lower-case form, every
role is `"user"`, every password is an output of the hasher at cost 10, and no two documents
have the same username. -/
def StoreInv (lib : Lib) (users : List User) : Prop :=
  (∀ u ∈ users, lib.toLowerCase u.username = u.username ∧ u.role = "user" ∧
    ∃ pw salt, u.password = lib.bcryptHash pw 10 salt) ∧
  users.Pairwise (fun a b => a.username ≠ b.username)

/-- Every request keeps the invariant of the user collection. -/
theorem step_storeInv (lib : Lib) (env : Env)
    (hidem : ∀ s, lib.toLowerCase (lib.toLowerCase s) = lib.toLowerCase s)
    (st : State) (req : Request) (amb : Ambient) (h : StoreInv lib st.users) :
    StoreInv lib (step lib env st req amb).2.users := by
  cases req with
  | register body =>
    rcases register_cases lib st body amb with ⟨hr, -⟩ | ⟨name, pw, user, -, -, -, -, hf, hs, hr⟩
    · simp only [step, hr]
      exact h
    · obtain ⟨-, -, e, -, -, huser⟩ := userSchema_some lib _ _ _ _ _ hs
      simp only [step, hr]
      refine ⟨?_, ?_⟩
      · intro u hu
        rcases List.mem_append.mp hu with hu | hu
        · exact h.1 u hu
        · simp only [List.mem_singleton] at hu
          subst hu
          rw [huser]
          exact ⟨hidem name, rfl, pw, amb.salt, rfl⟩
      · rw [List.pairwise_append]
        refine ⟨h.2, List.pairwise_singleton _ _, ?_⟩
        intro a ha b hb
        simp only [List.mem_singleton] at hb
        subst hb
        have := List.find?_eq_none.mp hf a ha
        rw [huser]
        simpa using this
  | login body =>
    have : (login lib env st body amb).2 = st := by
      simp only [login]
      repeat' split
      all_goals rfl
    simp only [step, this]
    exact h
  | logout authorization =>
    simp only [step, logout]
    split <;> exact h
  | «protected» authorization =>
    simp only [step, «protected»]
    split <;> exact h

/-- Every sequence of requests keeps the invariant of the user collection. -/
theorem run_storeInv (lib : Lib) (env : Env)
    (hidem : ∀ s, lib.toLowerCase (lib.toLowerCase s) = lib.toLowerCase s)
    (rs : List (Request × Ambient)) (st : State) (h : StoreInv lib st.users) :
    StoreInv lib (run lib env st rs).users := by
  induction rs generalizing st with
  | nil => exact h
  | cons r rest ih =>
    obtain ⟨req, amb⟩ := r
    exact ih _ (step_storeInv lib env hidem st req amb h)

/-- Lower case of `A`-`Z` applied twice is lower case applied once. -/
theorem asciiLower_idem (s : String) : asciiLower (asciiLower s) = asciiLower s := by
  have hc : ∀ c : Char, c.toLower.toLower = c.toLower := by
    intro c
    by_cases h : c.toNat ≥ 65 ∧ c.toNat ≤ 90
    · have e : c.toLower = Char.ofNat (c.toNat + 32) := by simp [Char.toLower, h]
      rw [e]
      generalize c.toNat = n at h
      obtain ⟨h1, h2⟩ := h
      interval_cases n <;> decide
    · have e : c.toLower = c := by simp only [Char.toLower, h, if_false]
      rw [e, e]
  simp only [asciiLower, List.map_map]
  congr 1
  apply List.map_congr_left
  intro c _
  exact hc c

/-- C10: in every state reached from the empty store by a sequence of requests, provided
lower-casing a lower-cased string changes nothing: every stored username is its own
lower-case form; no two stored users have usernames with the same lower-case form; every
stored user has the role `"user"` and a password that is an output of the hasher; a
registration answered 201 appends exactly the document made of the lower-cased username,
the hash of the submitted password, the email and the role `"user"`; and whatever requests
follow, the users stored so far stay, unchanged and in place, at the head of the
collection. -/
theorem user_store_invariant (lib : Lib) (env : Env)
    (hidem : ∀ s, lib.toLowerCase (lib.toLowerCase s) = lib.toLowerCase s)
    (rs more : List (Request × Ambient)) (body : Body) (amb : Ambient) :
    (∀ u ∈ (run lib env State.empty rs).users, lib.toLowerCase u.username = u.username) ∧
    (run lib env State.empty rs).users.Pairwise
      (fun a b => lib.toLowerCase a.username ≠ lib.toLowerCase b.username) ∧
    (∀ u ∈ (run lib env State.empty rs).users,
      u.role = "user" ∧ ∃ pw salt, u.password = lib.bcryptHash pw 10 salt) ∧
    ((register lib (run lib env State.empty rs) body amb).1.status = 201 →
      ∃ name pw email, body.username = .str name ∧ body.password = .str pw ∧
        (register lib (run lib env State.empty rs) body amb).2.users
          = (run lib env State.empty rs).users ++
            [⟨amb.objectId, lib.toLowerCase name, lib.bcryptHash pw 10 amb.salt, email,
              "user"⟩]) ∧
    (run lib env State.empty rs).users <+:
      (run lib env (run lib env State.empty rs) more).users := by
  have hinv : StoreInv lib (run lib env State.empty rs).users :=
    run_storeInv lib env hidem rs State.empty
      ⟨fun u hu => by simp [State.empty] at hu, by simp [State.empty]⟩
  refine ⟨fun u hu => (hinv.1 u hu).1, ?_, fun u hu => (hinv.1 u hu).2, ?_, ?_⟩
  · refine List.Pairwise.imp_of_mem ?_ hinv.2
    intro a b ha hb hab
    rw [(hinv.1 a ha).1, (hinv.1 b hb).1]
    exact hab
  · intro h201
    rcases register_cases lib (run lib env State.empty rs) body amb with
      ⟨-, hne⟩ | ⟨name, pw, user, hn, hp, -, -, -, hs, hr⟩
    · exact absurd h201 hne
    · obtain ⟨-, -, e, -, -, huser⟩ := userSchema_some lib _ _ _ _ _ hs
      exact ⟨name, pw, e, hn, hp, by rw [hr, huser]⟩
  · exact run_users_extend lib env more _

/-- C10 on the stand-in libraries, whose lower-casing is idempotent: after `Bob` and then
`BOB` have tried to register, the store holds the one user `bob`. -/
theorem user_store_invariant_witness :
    (∀ s, Lib.demo.toLowerCase (Lib.demo.toLowerCase s) = Lib.demo.toLowerCase s) ∧
    (run Lib.demo Env.demo State.empty
      [(.register ⟨.str "Bob", .str "pw123", .str "b@x.com"⟩, Ambient.at 100),
       (.register ⟨.str "BOB", .str "pw456", .str "c@x.com"⟩, Ambient.at 110)]).users
      = [⟨"id1", "bob", "hash:pw123", "b@x.com", "user"⟩] ∧
    (run Lib.demo Env.demo State.empty
      [(.register ⟨.str "Bob", .str "pw123", .str "b@x.com"⟩, Ambient.at 100),
       (.register ⟨.str "BOB", .str "pw456", .str "c@x.com"⟩, Ambient.at 110)]).users.Pairwise
      (fun a b => Lib.demo.toLowerCase a.username ≠ Lib.demo.toLowerCase b.username) :=
  ⟨asciiLower_idem, by decide,
   (user_store_invariant Lib.demo Env.demo asciiLower_idem
      [(.register ⟨.str "Bob", .str "pw123", .str "b@x.com"⟩, Ambient.at 100),
       (.register ⟨.str "BOB", .str "pw456", .str "c@x.com"⟩, Ambient.at 110)] []
      ⟨.undefined, .undefined, .undefined⟩ (Ambient.at 120)).2.1⟩

/-! ### Server errors -/

/-- C8, the claim as written fails: with the database answering, the hasher and the signer
at work, both routes answer 500 `Server error` to a body without a username and to a body
whose username is a number; `/register` also answers 500 to a body without an email, with
an empty username or without a password, and `/login` to a known user's body without a
password. -/
theorem server_error_on_expected_input :
    (register Lib.demo State.empty ⟨.undefined, .str "pw123", .str "b@x.com"⟩
        (Ambient.at 100)).1 = ⟨500, .json "Server error" false none⟩ ∧
    (login Lib.demo Env.demo State.withBob ⟨.undefined, .str "pw123", .undefined⟩
        (Ambient.at 100)).1 = ⟨500, .json "Server error" false (some .null)⟩ ∧
    (register Lib.demo State.empty ⟨.num 7, .str "pw123", .str "b@x.com"⟩
        (Ambient.at 100)).1 = ⟨500, .json "Server error" false none⟩ ∧
    (login Lib.demo Env.demo State.withBob ⟨.num 7, .str "pw123", .undefined⟩
        (Ambient.at 100)).1 = ⟨500, .json "Server error" false (some .null)⟩ ∧
    (register Lib.demo State.empty ⟨.str "Bob", .str "pw123", .undefined⟩
        (Ambient.at 100)).1 = ⟨500, .json "Server error" false none⟩ ∧
    (register Lib.demo State.empty ⟨.str "", .str "pw123", .str "b@x.com"⟩
        (Ambient.at 100)).1 = ⟨500, .json "Server error" false none⟩ ∧
    (register Lib.demo State.empty ⟨.str "Bob", .undefined, .str "b@x.com"⟩
        (Ambient.at 100)).1 = ⟨500, .json "Server error" false none⟩ ∧
    (login Lib.demo Env.demo State.withBob ⟨.str "Bob", .undefined, .undefined⟩
        (Ambient.at 100)).1 = ⟨500, .json "Server error" false (some .null)⟩ := by
  decide

/-- C8, amended: while the database answers and the signer returns a token, a body whose
username and password are strings is never answered 500: `/login` answers 200, or 400 with
the wrong-credentials body, and `/register` answers 201 or 400 `User already exists` as
long as the new document passes the validation of the schema (username, hash and email are
strings that are not empty). A body whose username is not a string is answered 500 by both
routes. -/
theorem no_server_error_on_string_fields (lib : Lib) (env : Env) (st : State) (body : Body)
    (amb : Ambient) (name pw : String)
    (hname : body.username = .str name) (hpw : body.password = .str pw)
    (hfind : amb.findOneFails = false) (hsave : amb.saveFails = false)
    (hsign : ∀ payload, (lib.jwtEncode payload env.JWT_SECRET).isSome = true) :
    ((userSchema lib amb.objectId (lib.toLowerCase name) (lib.bcryptHash pw 10 amb.salt)
          body.email).isSome = true →
      (register lib st body amb).1.status = 201 ∨
      (register lib st body amb).1 = ⟨400, .text "User already exists"⟩) ∧
    ((login lib env st body amb).1.status = 200 ∨
      (login lib env st body amb).1
        = ⟨400, .json "UserName or Password is Wrong" false (some .null)⟩) ∧
    (∀ other : Body, (∀ s, other.username ≠ .str s) →
      (register lib st other amb).1 = ⟨500, .json "Server error" false none⟩ ∧
      (login lib env st other amb).1 = ⟨500, .json "Server error" false (some .null)⟩) := by
  refine ⟨?_, ?_, ?_⟩
  · intro hvalid
    obtain ⟨user, hs⟩ := Option.isSome_iff_exists.mp hvalid
    cases hf : User.findOne st.users (fun a b => a == b) (lib.toLowerCase name) with
    | some existing =>
      right
      simp [register, toLowerCase, hname, hfind, hf]
    | none =>
      left
      simp [register, toLowerCase, hname, hfind, hf, bcrypt.hash, hpw, hs, hsave]
  · cases hf : User.findOne st.users lib.collationEq (lib.toLowerCase name) with
    | none =>
      right
      simp [login, toLowerCase, hname, hfind, hf]
    | some user =>
      cases hc : lib.bcryptCompare pw user.password with
      | false =>
        right
        simp [login, toLowerCase, hname, hfind, hf, bcrypt.compare, hpw, hc]
      | true =>
        left
        obtain ⟨token, ht⟩ := Option.isSome_iff_exists.mp
          (hsign ([("_id", .str user._id), ("role", .str user.role)] ++
            [("iat", .num amb.now), ("exp", .num (amb.now + expiresIn))]))
        have hs : jwt.sign lib [("_id", .str user._id), ("role", .str user.role)]
            env.JWT_SECRET expiresIn amb.now = some token := ht
        simp [login, toLowerCase, hname, hfind, hf, bcrypt.compare, hpw, hc, hs]
  · intro other hother
    have hl : toLowerCase lib other.username = none := by
      cases hu : other.username with
      | str s => exact absurd hu (hother s)
      | _ => rfl
    simp [register, login, hl]

/-- The amended C8 on the stand-in libraries: `Bob` registers on the empty store (201) and
logs in there as an unknown user (400). -/
theorem no_server_error_on_string_fields_witness :
    (register Lib.demo State.empty ⟨.str "Bob", .str "pw123", .str "b@x.com"⟩
        (Ambient.at 100)).1.status = 201 ∧
    (login Lib.demo Env.demo State.empty ⟨.str "Bob", .str "pw123", .str "b@x.com"⟩
        (Ambient.at 100)).1
      = ⟨400, .json "UserName or Password is Wrong" false (some .null)⟩ := by
  have h := no_server_error_on_string_fields Lib.demo Env.demo State.empty
    ⟨.str "Bob", .str "pw123", .str "b@x.com"⟩ (Ambient.at 100) "Bob" "pw123" rfl rfl rfl rfl
    (by intro payload; rfl)
  constructor
  · rcases h.1 (by decide) with h201 | h400
    · exact h201
    · exact absurd h400 (by decide)
  · rcases h.2.1 with h200 | h400
    · exact absurd h200 (by decide)
    · exact h400

/-! ### The round trip -/

/-- C7, the claim as written fails at its first step: with a hasher that verifies every
password against its own hash, and whatever the signer and the verifier are, a registration
on the empty store with an empty username, or with an empty email, is answered 500 and not
201, because the document does not pass the `required` validators of the schema. -/
theorem round_trip_needs_nonempty_fields :
    (∀ p rounds salt,
      Lib.demo.bcryptCompare p (Lib.demo.bcryptHash p rounds salt) = true) ∧
    (∀ enc ver,
      register { Lib.demo with jwtEncode := enc, jwtVerify := ver } State.empty
          ⟨.str "", .str "pw123", .str "b@x.com"⟩ (Ambient.at 100)
        = (⟨500, .json "Server error" false none⟩, State.empty)) ∧
    (∀ enc ver,
      register { Lib.demo with jwtEncode := enc, jwtVerify := ver } State.empty
          ⟨.str "Bob", .str "pw123", .str ""⟩ (Ambient.at 100)
        = (⟨500, .json "Server error" false none⟩, State.empty)) := by
  refine ⟨?_, ?_, ?_⟩
  · intro p rounds salt
    simp [Lib.demo]
  · intro enc ver
    rfl
  · intro enc ver
    rfl

/-- C7, amended: from the empty store and the empty blacklist, for every username `u` whose
lower-case form is not empty, every password `p` whose hash is not empty and verifies
against `p`, and every email `e` that is not empty, while the database answers:
registration answers 201; a login under any `v` with the lower-case form of `u` and with
`p`, for which the signer returns a token `T` that is not empty, answers 200 with `T`; and
while the verifier accepts `T` (it is unexpired), `GET /protected` with `Bearer T` answers
200, `POST /logout` with `Bearer T` answers 200 and puts `T` in the blacklist, and
`GET /protected` with `Bearer T` is from then on answered 401 `Token is blacklisted`. -/
theorem round_trip (lib : Lib) (env : Env) (u p e v T : String) (other : JsVal)
    (amb₁ amb₂ amb₃ amb₄ amb₅ : Ambient)
    (hu : lib.toLowerCase u ≠ "") (he : e ≠ "")
    (hhash : lib.bcryptHash p 10 amb₁.salt ≠ "")
    (hcmp : lib.bcryptCompare p (lib.bcryptHash p 10 amb₁.salt) = true)
    (hv : lib.toLowerCase v = lib.toLowerCase u)
    (hcoll : lib.collationEq (lib.toLowerCase u) (lib.toLowerCase u) = true)
    (hdb₁ : amb₁.findOneFails = false) (hsave₁ : amb₁.saveFails = false)
    (hdb₂ : amb₂.findOneFails = false)
    (hsign : jwt.sign lib [("_id", .str amb₁.objectId), ("role", .str "user")] env.JWT_SECRET
      expiresIn amb₂.now = some T)
    (hT : T ≠ "")
    (hverify : ∀ now, now < amb₂.now + expiresIn →
      (jwt.verify lib T env.JWT_SECRET now).isSome = true)
    (h₃ : amb₃.now < amb₂.now + expiresIn) (h₄ : amb₄.now < amb₂.now + expiresIn) :
    register lib State.empty ⟨.str u, .str p, .str e⟩ amb₁
      = (⟨201, .json "Saved Successfully" true (some (.id amb₁.objectId))⟩,
         ⟨[⟨amb₁.objectId, lib.toLowerCase u, lib.bcryptHash p 10 amb₁.salt, e, "user"⟩],
          []⟩) ∧
    login lib env
        ⟨[⟨amb₁.objectId, lib.toLowerCase u, lib.bcryptHash p 10 amb₁.salt, e, "user"⟩], []⟩
        ⟨.str v, .str p, other⟩ amb₂
      = (⟨200, .json "Login Success" true (some (.token T))⟩,
         ⟨[⟨amb₁.objectId, lib.toLowerCase u, lib.bcryptHash p 10 amb₁.salt, e, "user"⟩],
          []⟩) ∧
    «protected» lib env
        ⟨[⟨amb₁.objectId, lib.toLowerCase u, lib.bcryptHash p 10 amb₁.salt, e, "user"⟩], []⟩
        (some ("Bearer " ++ T)) amb₃
      = (⟨200, .text "This is a protected route"⟩,
         ⟨[⟨amb₁.objectId, lib.toLowerCase u, lib.bcryptHash p 10 amb₁.salt, e, "user"⟩],
          []⟩) ∧
    logout lib env
        ⟨[⟨amb₁.objectId, lib.toLowerCase u, lib.bcryptHash p 10 amb₁.salt, e, "user"⟩], []⟩
        (some ("Bearer " ++ T)) amb₄
      = (⟨200, .text "Logged out successfully"⟩,
         ⟨[⟨amb₁.objectId, lib.toLowerCase u, lib.bcryptHash p 10 amb₁.salt, e, "user"⟩],
          [some T]⟩) ∧
    «protected» lib env
        ⟨[⟨amb₁.objectId, lib.toLowerCase u, lib.bcryptHash p 10 amb₁.salt, e, "user"⟩],
          [some T]⟩
        (some ("Bearer " ++ T)) amb₅
      = (⟨401, .text "Token is blacklisted"⟩,
         ⟨[⟨amb₁.objectId, lib.toLowerCase u, lib.bcryptHash p 10 amb₁.salt, e, "user"⟩],
          [some T]⟩) := by
  have hx := extractToken_bearer T
  obtain ⟨d₃, hd₃⟩ := Option.isSome_iff_exists.mp (hverify amb₃.now h₃)
  obtain ⟨d₄, hd₄⟩ := Option.isSome_iff_exists.mp (hverify amb₄.now h₄)
  refine ⟨?_, ?_, ?_, ?_, ?_⟩
  · simp [register, toLowerCase, hdb₁, User.findOne, State.empty, bcrypt.hash, userSchema,
      checkRequired, castString, hu, he, hhash, hsave₁]
  · simp [login, toLowerCase, hdb₂, User.findOne, hv, hcoll, bcrypt.compare, hcmp, hsign]
  · simp only [«protected», verifyToken, hx, hT, if_false, List.not_mem_nil, hd₃]
  · simp only [logout, verifyToken, hx, hT, if_false, List.not_mem_nil, hd₄, List.nil_append]
  · exact (guarded_blacklisted lib env _ _ amb₅ T hx hT (by simp)).1

/-- The scenario of section 8 of the specification on the stand-in libraries: `Bob`
registers, logs in as `bob`, reaches the protected route, logs out, and is refused. -/
theorem round_trip_witness :
    register Lib.demo State.empty ⟨.str "Bob", .str "pw123", .str "b@x.com"⟩ (Ambient.at 100)
      = (⟨201, .json "Saved Successfully" true (some (.id "id1"))⟩, State.withBob) ∧
    login Lib.demo Env.demo State.withBob ⟨.str "bob", .str "pw123", .undefined⟩
        (Ambient.at 100)
      = (⟨200, .json "Login Success" true (some (.token "h.p.s"))⟩, State.withBob) ∧
    «protected» Lib.demo Env.demo State.withBob (some ("Bearer " ++ "h.p.s")) (Ambient.at 200)
      = (⟨200, .text "This is a protected route"⟩, State.withBob) ∧
    logout Lib.demo Env.demo State.withBob (some ("Bearer " ++ "h.p.s")) (Ambient.at 300)
      = (⟨200, .text "Logged out successfully"⟩, ⟨State.withBob.users, [some "h.p.s"]⟩) ∧
    «protected» Lib.demo Env.demo ⟨State.withBob.users, [some "h.p.s"]⟩
        (some ("Bearer " ++ "h.p.s")) (Ambient.at 400)
      = (⟨401, .text "Token is blacklisted"⟩, ⟨State.withBob.users, [some "h.p.s"]⟩) :=
  round_trip Lib.demo Env.demo "Bob" "pw123" "b@x.com" "bob" "h.p.s" .undefined
    (Ambient.at 100) (Ambient.at 100) (Ambient.at 200) (Ambient.at 300) (Ambient.at 400)
    (by decide) (by decide) (by decide) (by decide) (by decide) (by decide) rfl rfl rfl
    (by decide) (by decide)
    (by
      intro now hnow
      have h4000 : now < 4000 := by
        simp only [Ambient.at, expiresIn] at hnow
        omega
      simp [jwt.verify, Lib.demo, Env.demo, h4000])
    (by decide) (by decide)

end LoginRegisterApi
